import Mathlib

/-!
Verification of the SoulTalk backend authentication core.

This file gives a shallow embedding of the data model (`src/app/models`),
the auth services (`src/app/services/auth_service.py`,
`src/app/services/user_service.py`, `src/app/services/password_service.py`,
`src/app/services/jwt_service.py`) and the API handlers the claims reference
(`src/app/api/auth.py`, `src/app/api/social_auth.py`), and proves or refutes
the frozen claims about them.

Modelling conventions:
- the relational store is a `DB` record of lists of rows; SQLAlchemy
  `scalar_one_or_none` over a unique-indexed column is modelled with
  `List.find?` (the storage-level unique index guarantees at most one match);
  bulk `UPDATE ... WHERE` is modelled with `List.map` guarded by the WHERE
  predicate; in-place mutation of a fetched row is modelled by mapping over
  the list at the row's unique key;
- `datetime` values are `Nat` seconds; `datetime.now(timezone.utc)` is an
  explicit `now` argument threaded through each call;
- the opaque cryptographic capabilities (SHA-256 hex, bcrypt hash/verify,
  jose JWT encoding) are a `Crypto` parameter record, and the entropy a call
  draws (`secrets` module) is an `Ent` parameter record — per spec §1 these
  are external collaborators of the core;
- a Python exception that escapes a service is an `Except.error`; the FastAPI
  dependency that owns the transaction rolls the session back when an
  exception escapes, so an erroring call returns the caller's original `DB`
  (spec §5: "if a request is aborted mid-flow, the transaction must roll
  back atomically").
-/

namespace SoulTalk

/-! ## Data model — src/app/models -/

/-- `app.models.social_account.ProviderEnum`. -/
inductive ProviderEnum
  | google
  | facebook
  | email
deriving DecidableEq

/-- `ProviderEnum.value` (the `str` payload of the Python enum). -/
def ProviderEnum.value : ProviderEnum → String
  | .google => "google"
  | .facebook => "facebook"
  | .email => "email"

/-- `app.models.user.User` row.  `display_first_name` is the column added by
migration 006 (the kwarg `user_service.create_user` sets); timestamps are
`Nat` seconds. -/
structure UserRow where
  id : Nat
  email : String
  password_hash : Option String
  first_name : String
  last_name : String
  display_first_name : Option String
  display_name : Option String
  username : Option String
  bio : Option String
  pronoun : Option String
  email_verified : Bool
  is_active : Bool
  created_at : Nat
  updated_at : Nat
  last_login_at : Option Nat
deriving DecidableEq

/-- `app.models.social_account.SocialAccount` row (profile_data JSON blob is
kept opaque as an optional string). -/
structure SocialAccountRow where
  user_id : Nat
  provider : ProviderEnum
  provider_user_id : String
  provider_email : Option String
  profile_data : Option String
  created_at : Nat
deriving DecidableEq

/-- `app.models.refresh_token.RefreshToken` row. -/
structure RefreshTokenRow where
  user_id : Nat
  token_hash : String
  device_info : Option String
  ip_address : Option String
  expires_at : Nat
  is_revoked : Bool
  created_at : Nat
deriving DecidableEq

/-- `RefreshToken.is_expired`: `datetime.now(timezone.utc) > self.expires_at`. -/
def RefreshTokenRow.is_expired (r : RefreshTokenRow) (now : Nat) : Bool :=
  now > r.expires_at

/-- `app.models.email_verification.EmailVerificationToken` row. -/
structure EmailVerificationTokenRow where
  user_id : Nat
  token_hash : String
  token_type : String
  expires_at : Nat
  is_used : Bool
  created_at : Nat
deriving DecidableEq

/-- `EmailVerificationToken.is_expired`. -/
def EmailVerificationTokenRow.is_expired (r : EmailVerificationTokenRow) (now : Nat) : Bool :=
  now > r.expires_at

/-- One message handed to the Notification Gateway
(`email_service.send_verification_email` / `send_password_reset_email`).
`send_email` swallows every transport exception and returns a `bool`, so
dispatch is modelled as an unconditional outbox append. -/
inductive Mail
  | verification (to_email first_name otp_code : String)
  | passwordReset (to_email first_name token : String)
deriving DecidableEq

/-- The relational store plus the outbox of dispatched mails.  `next_id` is
the id generator for new `users` rows (uuid4 in the source — modelled as a
fresh counter). -/
structure DB where
  users : List UserRow
  social_accounts : List SocialAccountRow
  refresh_tokens : List RefreshTokenRow
  email_verification_tokens : List EmailVerificationTokenRow
  next_id : Nat
  outbox : List Mail
deriving DecidableEq

/-! ## Opaque capabilities and entropy -/

/-- The cryptographic collaborators the core calls out to, kept opaque per
spec §1: `sha256hex` is `JWTService._hash_token` (SHA-256 hex digest),
`hashPw` is passlib bcrypt `CryptContext.hash`, `checkPw` the bcrypt
comparison run on an identified digest, and `jwtEncode` the jose
`jwt.encode` of the access-token payload `(sub, email, iat)`. -/
structure Crypto where
  sha256hex : String → String
  hashPw : String → String
  checkPw : String → String → Bool
  jwtEncode : Nat → String → Nat → String

/-- The entropy one request draws from the `secrets` module: the per-digit
OTP randomness, and the raw URL-safe tokens from `secrets.token_urlsafe`. -/
structure Ent where
  otpDigit : Nat → Fin 10
  refreshRaw : String
  resetRaw : String

/-- Python exception that can escape an auth service call.  passlib's
`UnknownHashError` is a subclass of `ValueError`, so both variants are
caught by an `except ValueError` handler. -/
inductive PyErr
  | valueError (msg : String)
  | unknownHashError (msg : String)
deriving DecidableEq

/-- Whether an `except ValueError` block catches the exception
(`UnknownHashError` subclasses `ValueError`, so: always). -/
def PyErr.isValueError : PyErr → Bool
  | .valueError _ => true
  | .unknownHashError _ => true

/-- The `detail=str(e)` string of the exception. -/
def PyErr.msg : PyErr → String
  | .valueError m => m
  | .unknownHashError m => m

/-! ## Configuration defaults — src/app/core/config.py -/

def OTP_LENGTH : Nat := 6
def OTP_EXPIRE_MINUTES : Nat := 10
def ACCESS_TOKEN_EXPIRE_MINUTES : Nat := 15
def REFRESH_TOKEN_EXPIRE_DAYS : Nat := 30
def PASSWORD_RESET_EXPIRE_HOURS : Nat := 1

/-! ## Credential hasher — src/app/services/password_service.py -/

/-- `str.startswith`, computed on the character data (kernel-reducible,
unlike `String.startsWith`). -/
def strStartsWith (s p : String) : Bool :=
  p.data.isPrefixOf s.data

/-- Python `str.lower()`, computed on the character data (kernel-reducible,
unlike `String.toLower`). -/
def strToLower (s : String) : String :=
  ⟨s.data.map Char.toLower⟩

/-- passlib's identification of a stored digest for
`CryptContext(schemes=["bcrypt"])`: the bcrypt scheme recognises exactly the
`$2*$`-prefixed modular-crypt formats (idents `$2$`, `$2a$`, `$2b$`, `$2x$`,
`$2y$`). -/
def bcrypt_identify (s : String) : Bool :=
  strStartsWith s "$2$" || strStartsWith s "$2a$" || strStartsWith s "$2b$"
    || strStartsWith s "$2x$" || strStartsWith s "$2y$"

/-- passlib `CryptContext(schemes=["bcrypt"]).verify`: if the stored digest
is not identified as belonging to a configured scheme, passlib raises
`UnknownHashError` (a `ValueError`); otherwise the bcrypt comparison runs
and returns a boolean. -/
def pwd_context_verify (c : Crypto) (plain hashed : String) : Except PyErr Bool :=
  if bcrypt_identify hashed then .ok (c.checkPw plain hashed)
  else .error (.unknownHashError "hash could not be identified")

/-- `PasswordService.verify_password`: delegates to `pwd_context.verify`
with no exception handling of its own. -/
def PasswordService.verify_password (c : Crypto) (plain_password hashed_password : String) :
    Except PyErr Bool :=
  pwd_context_verify c plain_password hashed_password

/-- `PasswordService.hash_password`. -/
def PasswordService.hash_password (c : Crypto) (password : String) : String :=
  c.hashPw password

/-! ## Token codec — src/app/services/jwt_service.py -/

/-- `JWTService._hash_token` = `hash_refresh_token`. -/
def JWTService.hash_token (c : Crypto) (token : String) : String :=
  c.sha256hex token

/-- `JWTService.create_access_token`: returns
`(encoded_jwt, expires_delta.total_seconds())`. -/
def JWTService.create_access_token (c : Crypto) (now : Nat) (user_id : Nat) (email : String) :
    String × Nat :=
  (c.jwtEncode user_id email now, ACCESS_TOKEN_EXPIRE_MINUTES * 60)

/-- `JWTService.create_refresh_token`: raw `secrets.token_urlsafe(64)`
string, its SHA-256 hex digest, and expiry `now + 30 days`. -/
def JWTService.create_refresh_token (c : Crypto) (ent : Ent) (now : Nat) :
    String × String × Nat :=
  (ent.refreshRaw, c.sha256hex ent.refreshRaw, now + REFRESH_TOKEN_EXPIRE_DAYS * 86400)

/-- `JWTService.create_verification_token`: raw `secrets.token_urlsafe(32)`
string and its SHA-256 hex digest. -/
def JWTService.create_verification_token (c : Crypto) (ent : Ent) :
    String × String :=
  (ent.resetRaw, c.sha256hex ent.resetRaw)

/-- Modelled from the spec: `JWTService.generate_otp_code` is called from
`AuthService.register` and `AuthService.resend_verification_email`
(src/app/services/auth_service.py lines 61 and 344) but its definition is
absent from the source tree under src/ (src/app/services/jwt_service.py has
no such method).  Spec §4.2 `mintOtpCode(numDigits) -> (rawDigits, digest)`:
"numeric code of exactly `numDigits` characters (default 6),
cryptographically random per digit (not a random integer formatted — must
have uniform digit distribution including leading zeros)"; the digest is the
same one-way token hash used for the other opaque secrets. -/
def JWTService.generate_otp_code (c : Crypto) (ent : Ent) (num_digits : Nat) :
    String × String :=
  let code : String :=
    ⟨(List.range num_digits).map (fun i => Char.ofNat (48 + (ent.otpDigit i).val))⟩
  (code, c.sha256hex code)

/-! ## Account store — src/app/services/user_service.py -/

namespace UserService

/-- `UserService.create_user`.  `if password:` is Python truthiness, so an
empty-string password also yields `password_hash = None`.  The new row's id
is the fresh `next_id` (uuid4 in the source).  Returns the created row and
the updated store. -/
def create_user (c : Crypto) (now : Nat) (db : DB)
    (email first_name last_name : String) (password : Option String)
    (email_verified : Bool) : UserRow × DB :=
  let password_hash : Option String :=
    match password with
    | none => none
    | some p => if p = "" then none else some (PasswordService.hash_password c p)
  let user : UserRow :=
    { id := db.next_id
      email := strToLower email
      password_hash := password_hash
      first_name := first_name
      last_name := last_name
      display_first_name := some first_name
      display_name := none
      username := none
      bio := none
      pronoun := none
      email_verified := email_verified
      is_active := true
      created_at := now
      updated_at := now
      last_login_at := none }
  (user, { db with users := db.users ++ [user], next_id := db.next_id + 1 })

/-- `UserService.get_user_by_id` (`scalar_one_or_none` over the primary
key). -/
def get_user_by_id (db : DB) (user_id : Nat) : Option UserRow :=
  db.users.find? (fun u => u.id = user_id)

/-- `UserService.get_user_by_email`: `WHERE User.email == email.lower()`
(`scalar_one_or_none` over the unique email index). -/
def get_user_by_email (db : DB) (email : String) : Option UserRow :=
  db.users.find? (fun u => u.email = strToLower email)

/-- `UserService.set_password`: re-hashes and stamps `updated_at`, flushing
the mutated row (modelled as a map at the row's id). -/
def set_password (c : Crypto) (now : Nat) (db : DB) (user : UserRow) (password : String) :
    UserRow × DB :=
  let user1 := { user with
    password_hash := some (PasswordService.hash_password c password)
    updated_at := now }
  (user1, { db with users := db.users.map (fun u => if u.id = user.id then user1 else u) })

/-- `UserService.verify_password`: `if not user.password_hash: return False`
(Python falsiness: both `None` and the empty string), else delegates to the
password service. -/
def verify_password (c : Crypto) (user : UserRow) (password : String) : Except PyErr Bool :=
  match user.password_hash with
  | none => .ok false
  | some h => if h = "" then .ok false else PasswordService.verify_password c password h

/-- `UserService.mark_email_verified`. -/
def mark_email_verified (now : Nat) (db : DB) (user : UserRow) : UserRow × DB :=
  let user1 := { user with email_verified := true, updated_at := now }
  (user1, { db with users := db.users.map (fun u => if u.id = user.id then user1 else u) })

/-- `UserService.update_last_login`. -/
def update_last_login (now : Nat) (db : DB) (user : UserRow) : UserRow × DB :=
  let user1 := { user with last_login_at := some now }
  (user1, { db with users := db.users.map (fun u => if u.id = user.id then user1 else u) })

/-- `UserService.link_social_account`: inserts the link row. -/
def link_social_account (now : Nat) (db : DB) (user : UserRow) (provider : ProviderEnum)
    (provider_user_id : String) (provider_email : Option String)
    (profile_data : Option String) : SocialAccountRow × DB :=
  let row : SocialAccountRow :=
    { user_id := user.id
      provider := provider
      provider_user_id := provider_user_id
      provider_email := provider_email
      profile_data := profile_data
      created_at := now }
  (row, { db with social_accounts := db.social_accounts ++ [row] })

/-- `UserService.get_social_account`: `scalar_one_or_none` over the unique
`(provider, provider_user_id)` constraint. -/
def get_social_account (db : DB) (provider : ProviderEnum) (provider_user_id : String) :
    Option SocialAccountRow :=
  db.social_accounts.find?
    (fun a => a.provider = provider ∧ a.provider_user_id = provider_user_id)

/-- `UserService.get_user_social_accounts`. -/
def get_user_social_accounts (db : DB) (user_id : Nat) : List SocialAccountRow :=
  db.social_accounts.filter (fun a => a.user_id = user_id)

/-- The WHERE clause of the unlink DELETE: `(user_id, provider)` match. -/
def saMatch (user_id : Nat) (provider : ProviderEnum) (a : SocialAccountRow) : Bool :=
  a.user_id = user_id && a.provider = provider

/-- `UserService.unlink_social_account`: bulk DELETE by
`(user_id, provider)`; returns `rowcount > 0` and the updated store. -/
def unlink_social_account (db : DB) (user_id : Nat) (provider : ProviderEnum) :
    Bool × DB :=
  let hits := db.social_accounts.filter (saMatch user_id provider)
  let kept := db.social_accounts.filter (fun a => ! saMatch user_id provider a)
  (hits.length > 0, { db with social_accounts := kept })

/-- `UserService.get_user_providers`: provider value strings of the user's
links. -/
def get_user_providers (db : DB) (user_id : Nat) : List String :=
  (get_user_social_accounts db user_id).map (fun a => a.provider.value)

/-- `UserService.has_password`: `user.password_hash is not None` (note: no
empty-string check here, unlike `verify_password`). -/
def has_password (user : UserRow) : Bool :=
  user.password_hash.isSome

end UserService

/-! ## Notification gateway — src/app/services/email_service.py
(`send_email` catches every exception, so dispatch never fails the flow). -/

def send_verification_email (db : DB) (to_email first_name otp_code : String) : DB :=
  { db with outbox := db.outbox ++ [.verification to_email first_name otp_code] }

def send_password_reset_email (db : DB) (to_email first_name token : String) : DB :=
  { db with outbox := db.outbox ++ [.passwordReset to_email first_name token] }

/-! ## Auth orchestrator — src/app/services/auth_service.py -/

namespace AuthService

/-- `AuthService._generate_tokens`: mints the access token, mints and
persists a refresh session, returns
`(access_token, raw_refresh, expires_in)`. -/
def generate_tokens (c : Crypto) (ent : Ent) (now : Nat) (db : DB) (user : UserRow)
    (device_info ip_address : Option String) : (String × String × Nat) × DB :=
  let (access_token, expires_in) := JWTService.create_access_token c now user.id user.email
  let (raw_refresh, refresh_hash, refresh_expires) := JWTService.create_refresh_token c ent now
  let record : RefreshTokenRow :=
    { user_id := user.id
      token_hash := refresh_hash
      device_info := device_info
      ip_address := ip_address
      expires_at := refresh_expires
      is_revoked := false
      created_at := now }
  ((access_token, raw_refresh, expires_in),
    { db with refresh_tokens := db.refresh_tokens ++ [record] })

/-- `AuthService.register`: conflict pre-check on the normalized email, user
creation, email-provider link, OTP record, verification mail.  Returns
`(user, otp_code)`. -/
def register (c : Crypto) (ent : Ent) (now : Nat) (db : DB)
    (email password first_name last_name : String) :
    Except PyErr ((UserRow × String) × DB) :=
  match UserService.get_user_by_email db email with
  | some _ => .error (.valueError "Email already registered")
  | none =>
    let (user, db1) :=
      UserService.create_user c now db email first_name last_name (some password) false
    let (_, db2) :=
      UserService.link_social_account now db1 user .email (strToLower email)
        (some (strToLower email)) none
    let (otp_code, code_hash) := JWTService.generate_otp_code c ent OTP_LENGTH
    let expires_at := now + OTP_EXPIRE_MINUTES * 60
    let verification : EmailVerificationTokenRow :=
      { user_id := user.id
        token_hash := code_hash
        token_type := "email_verification"
        expires_at := expires_at
        is_used := false
        created_at := now }
    let db3 := { db2 with
      email_verification_tokens := db2.email_verification_tokens ++ [verification] }
    let db4 := send_verification_email db3 email first_name otp_code
    .ok ((user, otp_code), db4)

/-- `AuthService.login`: the four guards in source order (absent user,
inactive account, password mismatch, unverified email), then last-login
stamp and token pair. -/
def login (c : Crypto) (ent : Ent) (now : Nat) (db : DB)
    (email password : String) (device_info ip_address : Option String) :
    Except PyErr ((String × String × Nat) × DB) :=
  match UserService.get_user_by_email db email with
  | none => .error (.valueError "Invalid email or password")
  | some user =>
    if ¬ user.is_active then .error (.valueError "Account is deactivated")
    else
      match UserService.verify_password c user password with
      | .error e => .error e
      | .ok ok =>
        if ¬ ok then .error (.valueError "Invalid email or password")
        else if ¬ user.email_verified then
          .error (.valueError "Please verify your email before logging in")
        else
          let (user1, db1) := UserService.update_last_login now db user
          .ok (generate_tokens c ent now db1 user1 device_info ip_address)

/-- `AuthService.refresh_tokens`: digest lookup, revoked/expired guards,
user guards, in-place revocation of the presented session (rotation), new
pair. -/
def refresh_tokens (c : Crypto) (ent : Ent) (now : Nat) (db : DB)
    (refresh_token : String) (device_info ip_address : Option String) :
    Except PyErr ((String × String × Nat) × DB) :=
  let token_hash := JWTService.hash_token c refresh_token
  match db.refresh_tokens.find? (fun r => r.token_hash = token_hash) with
  | none => .error (.valueError "Invalid refresh token")
  | some stored_token =>
    if stored_token.is_revoked then .error (.valueError "Refresh token has been revoked")
    else if stored_token.is_expired now then .error (.valueError "Refresh token has expired")
    else
      match UserService.get_user_by_id db stored_token.user_id with
      | none => .error (.valueError "User not found or inactive")
      | some user =>
        if ¬ user.is_active then .error (.valueError "User not found or inactive")
        else
          let revoked := db.refresh_tokens.map
            (fun r => if r.token_hash = token_hash then { r with is_revoked := true } else r)
          let db1 := { db with refresh_tokens := revoked }
          .ok (generate_tokens c ent now db1 user device_info ip_address)

/-- `AuthService.logout_all_devices`: bulk UPDATE revoking every
non-revoked session of the user; returns the row count. -/
def logout_all_devices (db : DB) (user_id : Nat) : Nat × DB :=
  let hit := db.refresh_tokens.filter
    (fun r => r.user_id = user_id ∧ r.is_revoked = false)
  let revoked := db.refresh_tokens.map
    (fun r => if r.user_id = user_id ∧ r.is_revoked = false
      then { r with is_revoked := true } else r)
  (hit.length, { db with refresh_tokens := revoked })

/-- `AuthService.request_password_reset`: absent email returns `None`
silently; a user with a falsy `password_hash` (social-only) raises
`ValueError("social_auth_only")`; otherwise persists the reset digest and
dispatches the reset mail, returning the raw token. -/
def request_password_reset (c : Crypto) (ent : Ent) (now : Nat) (db : DB)
    (email : String) : Except PyErr (Option String × DB) :=
  match UserService.get_user_by_email db email with
  | none => .ok (none, db)
  | some user =>
    if user.password_hash.getD "" = "" then .error (.valueError "social_auth_only")
    else
      let (raw_token, token_hash) := JWTService.create_verification_token c ent
      let expires_at := now + PASSWORD_RESET_EXPIRE_HOURS * 3600
      let reset_token : EmailVerificationTokenRow :=
        { user_id := user.id
          token_hash := token_hash
          token_type := "password_reset"
          expires_at := expires_at
          is_used := false
          created_at := now }
      let db1 := { db with
        email_verification_tokens := db.email_verification_tokens ++ [reset_token] }
      let db2 := send_password_reset_email db1 email user.first_name raw_token
      .ok (some raw_token, db2)

/-- `AuthService.reset_password`: digest+kind lookup, used/expired guards,
mark used (in-place), user lookup, re-hash, revoke all sessions. -/
def reset_password (c : Crypto) (now : Nat) (db : DB)
    (token new_password : String) : Except PyErr (UserRow × DB) :=
  let token_hash := JWTService.hash_token c token
  match db.email_verification_tokens.find?
      (fun r => r.token_hash = token_hash ∧ r.token_type = "password_reset") with
  | none => .error (.valueError "Invalid reset token")
  | some reset_token =>
    if reset_token.is_used then .error (.valueError "Token has already been used")
    else if reset_token.is_expired now then .error (.valueError "Token has expired")
    else
      let marked := db.email_verification_tokens.map
        (fun r => if r.token_hash = token_hash ∧ r.token_type = "password_reset"
          then { r with is_used := true } else r)
      let db1 := { db with email_verification_tokens := marked }
      match UserService.get_user_by_id db1 reset_token.user_id with
      | none => .error (.valueError "User not found")
      | some user =>
        let (user1, db2) := UserService.set_password c now db1 user new_password
        let (_, db3) := logout_all_devices db2 user.id
        .ok (user1, db3)

/-- `AuthService.resend_verification_email`: `False` for an absent user,
`ValueError` for an already-verified one, else bulk-invalidate prior unused
email-verification records, mint a fresh OTP, persist its digest and
dispatch it. -/
def resend_verification_email (c : Crypto) (ent : Ent) (now : Nat) (db : DB)
    (email : String) : Except PyErr (Bool × DB) :=
  match UserService.get_user_by_email db email with
  | none => .ok (false, db)
  | some user =>
    if user.email_verified then .error (.valueError "Email is already verified")
    else
      let invalidated := db.email_verification_tokens.map
        (fun r => if r.user_id = user.id ∧ r.token_type = "email_verification"
            ∧ r.is_used = false
          then { r with is_used := true } else r)
      let db1 := { db with email_verification_tokens := invalidated }
      let (otp_code, code_hash) := JWTService.generate_otp_code c ent OTP_LENGTH
      let expires_at := now + OTP_EXPIRE_MINUTES * 60
      let verification : EmailVerificationTokenRow :=
        { user_id := user.id
          token_hash := code_hash
          token_type := "email_verification"
          expires_at := expires_at
          is_used := false
          created_at := now }
      let db2 := { db1 with
        email_verification_tokens := db1.email_verification_tokens ++ [verification] }
      let db3 := send_verification_email db2 email user.first_name otp_code
      .ok (true, db3)

end AuthService

/-! ## Profile update — `UserService.update_user` and the `PUT /me` handler
(src/app/api/auth.py `update_user_profile`).

The handler builds `update_fields = data.model_dump(exclude_unset=True)`
from the `UserUpdate` schema, so each of the six updatable fields arrives in
one of three states: absent from the payload, supplied as JSON null, or
supplied with a value.  That three-way state is `Option (Option String)`:
`none` = absent, `some none` = supplied null, `some (some v)` = supplied
value.  `update_user` then skips any kwarg whose value is `None`
(`if hasattr(user, key) and value is not None`), sets the rest, and stamps
`updated_at`. -/

structure UserUpdateKwargs where
  first_name : Option (Option String) := none
  last_name : Option (Option String) := none
  display_name : Option (Option String) := none
  username : Option (Option String) := none
  bio : Option (Option String) := none
  pronoun : Option (Option String) := none
deriving DecidableEq

/-- One `setattr` step of `update_user` for a nullable column: a supplied
non-`None` value overwrites, anything else leaves the column alone. -/
def setIfSupplied (cur : Option String) (kw : Option (Option String)) : Option String :=
  match kw with
  | some (some v) => some v
  | _ => cur

/-- The same step for a non-nullable column. -/
def setIfSuppliedStr (cur : String) (kw : Option (Option String)) : String :=
  match kw with
  | some (some v) => v
  | _ => cur

/-- `UserService.update_user`: applies the kwargs (skipping `None` values),
stamps `updated_at`, flushes the row. -/
def UserService.update_user (now : Nat) (db : DB) (user : UserRow)
    (kw : UserUpdateKwargs) : UserRow × DB :=
  let user1 : UserRow := { user with
    first_name := setIfSuppliedStr user.first_name kw.first_name
    last_name := setIfSuppliedStr user.last_name kw.last_name
    display_name := setIfSupplied user.display_name kw.display_name
    username := setIfSupplied user.username kw.username
    bio := setIfSupplied user.bio kw.bio
    pronoun := setIfSupplied user.pronoun kw.pronoun
    updated_at := now }
  (user1, { db with users := db.users.map (fun u => if u.id = user.id then user1 else u) })

/-! ## API layer — src/app/api/auth.py, src/app/api/social_auth.py -/

namespace API

/-- `POST /login` (`login_user`): `except ValueError` maps every service
failure to `HTTPException(401, detail=str(e))`; every `PyErr` is a
`ValueError` subclass, so the handler catches all of them.  The error
observable is the `(status_code, detail)` pair. -/
def login_user (c : Crypto) (ent : Ent) (now : Nat) (db : DB)
    (email password : String) (device_info ip_address : Option String) :
    (Except (Nat × String) (String × String × Nat)) × DB :=
  match AuthService.login c ent now db email password device_info ip_address with
  | .ok (tokens, db1) => (.ok tokens, db1)
  | .error e => (.error (401, e.msg), db)

/-- `POST /reset-password` (`request_password_reset`): the handler calls the
service with NO `try/except` and then returns the fixed generic message, so
a `ValueError` raised by the service escapes the handler unhandled. -/
def request_password_reset (c : Crypto) (ent : Ent) (now : Nat) (db : DB)
    (email : String) : (Except PyErr (Nat × String)) × DB :=
  match AuthService.request_password_reset c ent now db email with
  | .ok (_, db1) =>
    (.ok (200, "If the email exists, a password reset link has been sent"), db1)
  | .error e => (.error e, db)

/-- `social_auth_service.SocialUserInfo` (normalized identity from the
Identity Provider Verifier). -/
structure SocialUserInfo where
  provider_user_id : String
  email : String
  first_name : String
  last_name : String
  email_verified : Bool
  profile_data : Option String
deriving DecidableEq

/-- `_handle_social_auth` (src/app/api/social_auth.py): the three-way
account-linking branch — provider-link lookup first, then email lookup,
then creation.  `first_name or "User"` / `last_name or ""` are Python
string truthiness. -/
def handle_social_auth (c : Crypto) (ent : Ent) (now : Nat) (db : DB)
    (provider : ProviderEnum) (user_info : SocialUserInfo)
    (device_info ip_address : Option String) :
    (Except PyErr (String × String × Nat)) × DB :=
  match UserService.get_social_account db provider user_info.provider_user_id with
  | some social_account =>
    match UserService.get_user_by_id db social_account.user_id with
    | none => (.error (.valueError "Account is deactivated"), db)
    | some user =>
      if ¬ user.is_active then (.error (.valueError "Account is deactivated"), db)
      else
        let (user1, db1) := UserService.update_last_login now db user
        let (tokens, db2) :=
          AuthService.generate_tokens c ent now db1 user1 device_info ip_address
        (.ok tokens, db2)
  | none =>
    match UserService.get_user_by_email db user_info.email with
    | some user =>
      let (_, db1) := UserService.link_social_account now db user provider
        user_info.provider_user_id (some user_info.email) user_info.profile_data
      let (user1, db2) :=
        if user_info.email_verified ∧ ¬ user.email_verified
        then UserService.mark_email_verified now db1 user
        else (user, db1)
      let (user2, db3) := UserService.update_last_login now db2 user1
      let (tokens, db4) :=
        AuthService.generate_tokens c ent now db3 user2 device_info ip_address
      (.ok tokens, db4)
    | none =>
      let fn := if user_info.first_name = "" then "User" else user_info.first_name
      let ln := user_info.last_name
      let (user, db1) :=
        UserService.create_user c now db user_info.email fn ln none
          user_info.email_verified
      let (_, db2) := UserService.link_social_account now db1 user provider
        user_info.provider_user_id (some user_info.email) user_info.profile_data
      let (user1, db3) := UserService.update_last_login now db2 user
      let (tokens, db4) :=
        AuthService.generate_tokens c ent now db3 user1 device_info ip_address
      (.ok tokens, db4)

/-- `ProviderEnum(provider.lower())`: the Python enum constructor matching
on the enum value, `ValueError` on anything else. -/
def parseProviderEnum (s : String) : Option ProviderEnum :=
  if strToLower s = "google" then some .google
  else if strToLower s = "facebook" then some .facebook
  else if strToLower s = "email" then some .email
  else none

/-- The no-password guard of `unlink_provider`: a user without a password
digest may not unlink when the remaining providers would contain no email
link and would be empty. -/
def unlink_blocked (db : DB) (current_user : UserRow) (provider_enum : ProviderEnum) :
    Bool :=
  if ¬ UserService.has_password current_user then
    let remaining := (UserService.get_user_providers db current_user.id).filter
      (fun q => q ≠ provider_enum.value)
    ¬ remaining.contains "email" ∧ remaining.length < 1
  else false

/-- The body of `unlink_provider` once the provider string has parsed:
email guard, sole-method guard, no-password guard, then the delete; `404`
when the delete touched no row. -/
def unlink_provider_known (db : DB) (current_user : UserRow)
    (provider_enum : ProviderEnum) : (Except (Nat × String) String) × DB :=
  if provider_enum = ProviderEnum.email then
    (.error (400, "Cannot unlink email provider"), db)
  else if (UserService.get_user_providers db current_user.id).length ≤ 1 then
    (.error (400, "Cannot unlink the only authentication method"), db)
  else if unlink_blocked db current_user provider_enum then
    (.error (400, "Set a password before unlinking social accounts"), db)
  else if (UserService.unlink_social_account db current_user.id provider_enum).1 then
    (.ok "unlinked", (UserService.unlink_social_account db current_user.id provider_enum).2)
  else
    (.error (404, "account not linked"),
      (UserService.unlink_social_account db current_user.id provider_enum).2)

/-- `DELETE /link/{provider}` (`unlink_provider`): provider parse, then the
guard chain.  Errors are `(status_code, detail)`. -/
def unlink_provider (db : DB) (current_user : UserRow) (provider : String) :
    (Except (Nat × String) String) × DB :=
  match parseProviderEnum provider with
  | none => (.error (400, "Invalid provider: " ++ provider), db)
  | some provider_enum => unlink_provider_known db current_user provider_enum

end API

/-! ## Concrete fixtures for the closed witnesses and counterexamples -/

/-- A concrete instantiation of the opaque capabilities: tagging functions
keep every closed evaluation decidable.  `hashPw` produces `$2b$`-prefixed
digests, as real bcrypt does. -/
def cT : Crypto :=
  { sha256hex := fun s => "sha(" ++ s ++ ")"
    hashPw := fun s => "$2b$" ++ s
    checkPw := fun p h => h = "$2b$" ++ p
    jwtEncode := fun _ _ _ => "jwt" }

/-- Concrete entropy draw for one call. -/
def entT : Ent :=
  { otpDigit := fun _ => (3 : Fin 10)
    refreshRaw := "RAW1"
    resetRaw := "RST1" }

/-- A second, distinct entropy draw. -/
def entT2 : Ent :=
  { otpDigit := fun _ => (0 : Fin 10)
    refreshRaw := "RAW2"
    resetRaw := "RST2" }

/-- The empty store. -/
def dbEmpty : DB :=
  { users := [], social_accounts := [], refresh_tokens := []
    email_verification_tokens := [], next_id := 0, outbox := [] }

/-- A user row template for the fixtures. -/
def uT : UserRow :=
  { id := 0
    email := "a@x.com"
    password_hash := some "$2b$pw"
    first_name := "A"
    last_name := "B"
    display_first_name := some "A"
    display_name := none
    username := none
    bio := none
    pronoun := none
    email_verified := true
    is_active := true
    created_at := 0
    updated_at := 0
    last_login_at := none }

/-- Store holding the single active, verified user `uT`. -/
def dbU : DB := { dbEmpty with users := [uT], next_id := 1 }

/-! ## Claim C2 — login failure oracle-resistance -/

/-- C2 counterexample: the claim says absent email, wrong password and
inactive account all yield the same external error kind and message.  Both
the absent-email store and the inactive-account store produce HTTP 401, but
the messages differ, so the caller can tell the inactive cause apart. -/
theorem c2_counterexample :
    (API.login_user cT entT 0 dbEmpty "a@x.com" "pw" none none).1 =
        .error (401, "Invalid email or password") ∧
      (API.login_user cT entT 0
          { dbEmpty with users := [{ uT with is_active := false }], next_id := 1 }
          "a@x.com" "pw" none none).1 =
        .error (401, "Account is deactivated") ∧
      ("Account is deactivated" : String) ≠ "Invalid email or password" := by
  exact ⟨rfl, rfl, by decide⟩

/-- C2 (amended): absent email and wrong password yield the identical
external error (HTTP 401, detail "Invalid email or password"); an inactive
account yields the same error kind (HTTP 401 via the same `ValueError`
channel) but the distinct detail "Account is deactivated", so that cause is
distinguishable by message. -/
theorem c2_login_failure_observables (c : Crypto) (ent : Ent) (now : Nat) (db : DB)
    (email password : String) (dev ip : Option String) :
    (UserService.get_user_by_email db email = none →
      (API.login_user c ent now db email password dev ip).1 =
        .error (401, "Invalid email or password")) ∧
    (∀ u, UserService.get_user_by_email db email = some u → u.is_active = true →
      UserService.verify_password c u password = .ok false →
      (API.login_user c ent now db email password dev ip).1 =
        .error (401, "Invalid email or password")) ∧
    (∀ u, UserService.get_user_by_email db email = some u → u.is_active = false →
      (API.login_user c ent now db email password dev ip).1 =
        .error (401, "Account is deactivated")) := by
  refine ⟨fun h => ?_, fun u hu ha hv => ?_, fun u hu ha => ?_⟩
  · simp [API.login_user, AuthService.login, h, PyErr.msg]
  · simp [API.login_user, AuthService.login, hu, ha, hv, PyErr.msg]
  · simp [API.login_user, AuthService.login, hu, ha, PyErr.msg]

/-- C2 witness: the amended statement at concrete inputs — an absent email
and a wrong password for an existing active user produce the same 401
observable. -/
theorem c2_login_failure_observables_witness :
    (API.login_user cT entT 0 dbEmpty "a@x.com" "pw" none none).1 =
        .error (401, "Invalid email or password") ∧
      (API.login_user cT entT 0 dbU "a@x.com" "bad" none none).1 =
        .error (401, "Invalid email or password") := by
  constructor
  · exact (c2_login_failure_observables cT entT 0 dbEmpty "a@x.com" "pw" none none).1 rfl
  · exact (c2_login_failure_observables cT entT 0 dbU "a@x.com" "bad" none none).2.1
      uT rfl rfl rfl

/-! ## Claim C3 — password-reset request for a social-only account -/

/-- C3: evaluation at the failing input.  For an absent email the handler
returns the generic 200 message and no mail is dispatched; but for a
social-only user (no password digest) the service raises
`ValueError("social_auth_only")` and the `POST /reset-password` handler has
no `try/except`, so the exception escapes unhandled instead of producing
the same generic message (the handler's own comment promises "Always return
same message for security").  No reset mail is dispatched in either case. -/
theorem c3_social_only_reset_escapes :
    (API.request_password_reset cT entT 0
          { dbEmpty with
              users := [{ uT with email := "s@x.com", password_hash := none }]
              next_id := 1 }
          "s@x.com").1 =
        .error (.valueError "social_auth_only") ∧
      (API.request_password_reset cT entT 0
          { dbEmpty with
              users := [{ uT with email := "s@x.com", password_hash := none }]
              next_id := 1 }
          "s@x.com").2.outbox = [] ∧
      (API.request_password_reset cT entT 0 dbEmpty "s@x.com").1 =
        .ok (200, "If the email exists, a password reset link has been sent") ∧
      (API.request_password_reset cT entT 0 dbEmpty "s@x.com").2.outbox = [] := by
  exact ⟨rfl, rfl, rfl, rfl⟩

/-! ## Claim C10 — profile update ignores nulls and preserves the frame -/

/-- Collapse of "supplied as null" into "absent" for one kwarg. -/
def scrubNull (kw : Option (Option String)) : Option (Option String) :=
  match kw with
  | some none => none
  | x => x

/-- Collapse of "supplied as null" into "absent" across the whole
`UserUpdate` payload. -/
def scrubKwargs (kw : UserUpdateKwargs) : UserUpdateKwargs :=
  { first_name := scrubNull kw.first_name
    last_name := scrubNull kw.last_name
    display_name := scrubNull kw.display_name
    username := scrubNull kw.username
    bio := scrubNull kw.bio
    pronoun := scrubNull kw.pronoun }

lemma setIfSupplied_scrub (cur : Option String) (kw : Option (Option String)) :
    setIfSupplied cur (scrubNull kw) = setIfSupplied cur kw := by
  rcases kw with _ | (_ | v) <;> rfl

lemma setIfSuppliedStr_scrub (cur : String) (kw : Option (Option String)) :
    setIfSuppliedStr cur (scrubNull kw) = setIfSuppliedStr cur kw := by
  rcases kw with _ | (_ | v) <;> rfl

lemma setIfSupplied_eq_none (cur : Option String) (kw : Option (Option String)) :
    setIfSupplied cur kw = none → cur = none := by
  rcases kw with _ | (_ | v) <;> simp [setIfSupplied]

lemma setIfSupplied_of_value (cur : Option String) (kw : Option (Option String))
    (v : String) : kw = some (some v) → setIfSupplied cur kw = some v := by
  rintro rfl; rfl

/-- C10: a profile-update field supplied as null is ignored exactly like an
absent field (scrubbing nulls from the payload leaves the call's result
unchanged), so a populated field can never be cleared back to null; a
supplied non-null value overwrites; and every column outside the six
`UserUpdate` fields is preserved except the `updated_at` stamp. -/
theorem c10_update_user_null_and_frame (now : Nat) (db : DB) (u : UserRow)
    (kw : UserUpdateKwargs) :
    UserService.update_user now db u (scrubKwargs kw) =
        UserService.update_user now db u kw ∧
      ((UserService.update_user now db u kw).1.bio = none → u.bio = none) ∧
      ((UserService.update_user now db u kw).1.username = none → u.username = none) ∧
      ((UserService.update_user now db u kw).1.pronoun = none → u.pronoun = none) ∧
      ((UserService.update_user now db u kw).1.display_name = none →
        u.display_name = none) ∧
      (∀ v, kw.bio = some (some v) →
        (UserService.update_user now db u kw).1.bio = some v) ∧
      ((UserService.update_user now db u kw).1.id = u.id ∧
        (UserService.update_user now db u kw).1.email = u.email ∧
        (UserService.update_user now db u kw).1.password_hash = u.password_hash ∧
        (UserService.update_user now db u kw).1.email_verified = u.email_verified ∧
        (UserService.update_user now db u kw).1.is_active = u.is_active ∧
        (UserService.update_user now db u kw).1.created_at = u.created_at ∧
        (UserService.update_user now db u kw).1.last_login_at = u.last_login_at ∧
        (UserService.update_user now db u kw).1.display_first_name =
          u.display_first_name ∧
        (UserService.update_user now db u kw).1.updated_at = now) := by
  refine ⟨?_, ?_, ?_, ?_, ?_, ?_, ?_⟩
  · simp [UserService.update_user, scrubKwargs, setIfSupplied_scrub,
      setIfSuppliedStr_scrub]
  · exact fun h => setIfSupplied_eq_none _ _ h
  · exact fun h => setIfSupplied_eq_none _ _ h
  · exact fun h => setIfSupplied_eq_none _ _ h
  · exact fun h => setIfSupplied_eq_none _ _ h
  · exact fun v hv => setIfSupplied_of_value _ _ _ hv
  · exact ⟨rfl, rfl, rfl, rfl, rfl, rfl, rfl, rfl, rfl⟩

/-- C10 witness: at a concrete user whose bio is set, supplying
`bio = null` and `username = "neo"` leaves the bio intact, sets the
username, behaves exactly like the payload without the null, and keeps the
frame. -/
theorem c10_update_user_null_and_frame_witness :
    UserService.update_user 7 dbU { uT with bio := some "hi" }
        (scrubKwargs { bio := some none, username := some (some "neo") }) =
      UserService.update_user 7 dbU { uT with bio := some "hi" }
        { bio := some none, username := some (some "neo") } ∧
    (UserService.update_user 7 dbU { uT with bio := some "hi" }
        { bio := some none, username := some (some "neo") }).1.email = uT.email := by
  constructor
  · exact (c10_update_user_null_and_frame 7 dbU { uT with bio := some "hi" }
      { bio := some none, username := some (some "neo") }).1
  · exact (c10_update_user_null_and_frame 7 dbU { uT with bio := some "hi" }
      { bio := some none, username := some (some "neo") }).2.2.2.2.2.2.2.1

/-! ## Claim C9 — unlink guards -/

lemma unlink_social_account_no_hit (db : DB) (uid : Nat) (pe : ProviderEnum)
    (h : (UserService.unlink_social_account db uid pe).1 = false) :
    (UserService.unlink_social_account db uid pe).2 = db := by
  unfold UserService.unlink_social_account at h ⊢
  simp only [decide_eq_false_iff_not, not_lt, Nat.le_zero, List.length_eq_zero,
    List.filter_eq_nil_iff] at h
  have hkeep : db.social_accounts.filter
      (fun a => ! UserService.saMatch uid pe a) = db.social_accounts := by
    refine List.filter_eq_self.mpr (fun a ha => ?_)
    have h2 := h a ha
    revert h2
    cases UserService.saMatch uid pe a <;> simp
  simp only [hkeep]

/-- C9: the unlink endpoint rejects whenever the target would be the user's
sole remaining linked provider (the `len(providers) <= 1` guard fires
regardless of which provider is named), additionally always rejects the
email provider, and deletes no link on any rejected path (the store is
returned unchanged, including the 404 path where the delete matched no
row). -/
theorem c9_unlink_guards (db : DB) (u : UserRow) (p : String) :
    ((UserService.get_user_providers db u.id).length ≤ 1 →
      ∃ e, (API.unlink_provider db u p).1 = .error e) ∧
    (API.parseProviderEnum p = some .email →
      ∃ e, (API.unlink_provider db u p).1 = .error e) ∧
    (∀ e, (API.unlink_provider db u p).1 = .error e →
      (API.unlink_provider db u p).2 = db) := by
  have hknown : ∀ pe : ProviderEnum,
      ((UserService.get_user_providers db u.id).length ≤ 1 →
        ∃ e, (API.unlink_provider_known db u pe).1 = .error e) ∧
      (∀ e, (API.unlink_provider_known db u pe).1 = .error e →
        (API.unlink_provider_known db u pe).2 = db) := by
    intro pe
    unfold API.unlink_provider_known
    by_cases hem : pe = ProviderEnum.email
    · exact ⟨fun _ => ⟨(400, "Cannot unlink email provider"), by simp [hem]⟩,
        fun e _ => by simp [hem]⟩
    · by_cases hlen : (UserService.get_user_providers db u.id).length ≤ 1
      · exact ⟨fun _ => ⟨(400, "Cannot unlink the only authentication method"),
            by simp [hem, hlen]⟩,
          fun e _ => by simp [hem, hlen]⟩
      · refine ⟨fun h => absurd h hlen, fun e he => ?_⟩
        simp only [if_neg hem, if_neg hlen] at he ⊢
        by_cases hbl : API.unlink_blocked db u pe = true
        · simp [hbl]
        · simp only [Bool.not_eq_true] at hbl
          simp only [hbl, Bool.false_eq_true, if_false] at he ⊢
          rcases hs : (UserService.unlink_social_account db u.id pe).1 with _ | _
          · simp only [hs, Bool.false_eq_true, if_false]
            exact unlink_social_account_no_hit db u.id pe hs
          · simp [hs] at he
  refine ⟨fun hlen => ?_, fun hpe => ?_, fun e he => ?_⟩
  · unfold API.unlink_provider
    rcases hp : API.parseProviderEnum p with _ | pe
    · exact ⟨_, rfl⟩
    · exact (hknown pe).1 hlen
  · unfold API.unlink_provider
    rw [hpe]
    exact ⟨(400, "Cannot unlink email provider"), by simp [API.unlink_provider_known]⟩
  · unfold API.unlink_provider at he ⊢
    rcases hp : API.parseProviderEnum p with _ | pe
    · rfl
    · rw [hp] at he
      exact (hknown pe).2 e he

/-- C9 witness: a user whose only link is a Google account cannot unlink
Google (sole-method guard), cannot unlink email (email guard), and the
store is unchanged after the rejected call. -/
theorem c9_unlink_guards_witness :
    (∃ e, (API.unlink_provider
        { dbU with social_accounts :=
            [{ user_id := 0, provider := .google, provider_user_id := "g1",
               provider_email := none, profile_data := none, created_at := 0 }] }
        uT "google").1 = .error e) ∧
    (∃ e, (API.unlink_provider dbU uT "email").1 = .error e) := by
  constructor
  · exact (c9_unlink_guards
      { dbU with social_accounts :=
          [{ user_id := 0, provider := .google, provider_user_id := "g1",
             provider_email := none, profile_data := none, created_at := 0 }] }
      uT "google").1 (by decide)
  · exact (c9_unlink_guards dbU uT "email").2.1 (by decide)

/-! ## Claim C1 — OTP minting in Register and ResendVerification -/

lemma otp_char_isDigit : ∀ d : Fin 10, (Char.ofNat (48 + d.val)).isDigit = true := by
  decide

/-- C1: the minted one-time code is character-by-character the digit stream
drawn from the entropy source, hence has exactly `OTP_LENGTH` (6)
decimal-digit characters for every draw — in particular for draws whose
first digit is 0 (leading zeros); its digest is the token hash of the raw
code.  A successful `register` (email not taken) returns the raw code,
persists a record of kind `email_verification` holding only the digest, and
dispatches the raw code by mail; a successful `resend_verification_email`
(user present and unverified) does the same.  (`generate_otp_code` itself is
modelled from the spec because its definition is absent from src/; see its
doc comment.) -/
theorem c1_otp_mint (c : Crypto) (ent : Ent) (now : Nat) (db : DB)
    (email password first_name last_name : String) :
    ((JWTService.generate_otp_code c ent OTP_LENGTH).1.data =
        (List.range OTP_LENGTH).map (fun i => Char.ofNat (48 + (ent.otpDigit i).val)) ∧
      (JWTService.generate_otp_code c ent OTP_LENGTH).1.length = OTP_LENGTH ∧
      (∀ ch ∈ (JWTService.generate_otp_code c ent OTP_LENGTH).1.data,
        ch.isDigit = true) ∧
      (JWTService.generate_otp_code c ent OTP_LENGTH).2 =
        c.sha256hex (JWTService.generate_otp_code c ent OTP_LENGTH).1) ∧
    (UserService.get_user_by_email db email = none →
      ∃ u db1, AuthService.register c ent now db email password first_name last_name =
          .ok ((u, (JWTService.generate_otp_code c ent OTP_LENGTH).1), db1) ∧
        (⟨u.id, c.sha256hex (JWTService.generate_otp_code c ent OTP_LENGTH).1,
            "email_verification", now + OTP_EXPIRE_MINUTES * 60, false, now⟩ :
            EmailVerificationTokenRow) ∈ db1.email_verification_tokens ∧
        Mail.verification email first_name
          (JWTService.generate_otp_code c ent OTP_LENGTH).1 ∈ db1.outbox) ∧
    (∀ u, UserService.get_user_by_email db email = some u → u.email_verified = false →
      ∃ db1, AuthService.resend_verification_email c ent now db email = .ok (true, db1) ∧
        (⟨u.id, c.sha256hex (JWTService.generate_otp_code c ent OTP_LENGTH).1,
            "email_verification", now + OTP_EXPIRE_MINUTES * 60, false, now⟩ :
            EmailVerificationTokenRow) ∈ db1.email_verification_tokens ∧
        Mail.verification email u.first_name
          (JWTService.generate_otp_code c ent OTP_LENGTH).1 ∈ db1.outbox) := by
  refine ⟨⟨rfl, ?_, ?_, rfl⟩, fun h => ?_, fun u hu hv => ?_⟩
  · simp [JWTService.generate_otp_code, String.length]
  · intro ch hch
    simp only [JWTService.generate_otp_code, List.mem_map, List.mem_range] at hch
    obtain ⟨i, _, rfl⟩ := hch
    exact otp_char_isDigit (ent.otpDigit i)
  · simp only [AuthService.register, h, send_verification_email]
    refine ⟨_, _, rfl, ?_, ?_⟩ <;> simp [JWTService.generate_otp_code]
  · simp only [AuthService.resend_verification_email, hu, hv, Bool.false_eq_true,
      if_false, send_verification_email]
    refine ⟨_, rfl, ?_, ?_⟩ <;> simp [JWTService.generate_otp_code]

/-- C1 witness: with the all-threes entropy draw the registration of a
fresh email mints the code "333333", stores its digest and mails the raw
code; and the all-zeros draw yields "000000" — a leading-zero code of full
length. -/
theorem c1_otp_mint_witness :
    (∃ u db1, AuthService.register cT entT 0 dbEmpty "b@x.com" "pw" "A" "B" =
        .ok ((u, (JWTService.generate_otp_code cT entT OTP_LENGTH).1), db1) ∧
      (⟨u.id, cT.sha256hex (JWTService.generate_otp_code cT entT OTP_LENGTH).1,
          "email_verification", 0 + OTP_EXPIRE_MINUTES * 60, false, 0⟩ :
          EmailVerificationTokenRow) ∈ db1.email_verification_tokens ∧
      Mail.verification "b@x.com" "A"
        (JWTService.generate_otp_code cT entT OTP_LENGTH).1 ∈ db1.outbox) ∧
    (JWTService.generate_otp_code cT entT2 OTP_LENGTH).1 = "000000" ∧
    (JWTService.generate_otp_code cT entT OTP_LENGTH).1 = "333333" := by
  refine ⟨(c1_otp_mint cT entT 0 dbEmpty "b@x.com" "pw" "A" "B").2.1 rfl, rfl, rfl⟩

/-! ## Claim C8 — Register: conflict guard and the single email link -/

/-- Id-freshness invariant of the store: every user id and every link's
owner id is below the id generator.  It holds for the empty store and the
fixtures, and the only id producer (`create_user`) maintains it. -/
def DB.wf (db : DB) : Prop :=
  (∀ u ∈ db.users, u.id < db.next_id) ∧
  (∀ a ∈ db.social_accounts, a.user_id < db.next_id)

/-- C8: when no user holds the normalized email, `register` succeeds with a
user whose `email_verified` is false and whose links in the post-state are
exactly one email-provider link carrying the lowercased registration email
as `provider_user_id`; when a user with the normalized email exists,
`register` raises the conflict `ValueError` before any write (the
transaction owner rolls back, so the store is unchanged). -/
theorem c8_register_conflict_and_link (c : Crypto) (ent : Ent) (now : Nat)
    (db : DB) (email password first_name last_name : String) (hwf : DB.wf db) :
    (UserService.get_user_by_email db email = none →
      ∃ u db1, AuthService.register c ent now db email password first_name last_name =
          .ok ((u, (JWTService.generate_otp_code c ent OTP_LENGTH).1), db1) ∧
        u.email_verified = false ∧
        db1.social_accounts.filter (fun a => a.user_id = u.id) =
          [⟨u.id, ProviderEnum.email, strToLower email, some (strToLower email),
            none, now⟩]) ∧
    (∀ u0, UserService.get_user_by_email db email = some u0 →
      AuthService.register c ent now db email password first_name last_name =
        .error (.valueError "Email already registered")) := by
  refine ⟨fun h => ?_, fun u0 h0 => ?_⟩
  · simp only [AuthService.register, h, send_verification_email]
    refine ⟨_, _, rfl, rfl, ?_⟩
    have hold : db.social_accounts.filter (fun a => a.user_id = db.next_id) = [] := by
      refine List.filter_eq_nil_iff.mpr (fun a ha => ?_)
      have := hwf.2 a ha
      simp only [decide_eq_true_eq]
      omega
    simp [UserService.create_user, UserService.link_social_account,
      List.filter_append, hold]
  · simp only [AuthService.register, h0]

/-- C8 witness: registering a fresh email on the empty store yields an
unverified user with exactly the one email link, and registering
"A@X.com" when "a@x.com" is taken yields the conflict error. -/
theorem c8_register_conflict_and_link_witness :
    (∃ u db1, AuthService.register cT entT 0 dbEmpty "b@x.com" "pw" "A" "B" =
        .ok ((u, (JWTService.generate_otp_code cT entT OTP_LENGTH).1), db1) ∧
      u.email_verified = false ∧
      db1.social_accounts.filter (fun a => a.user_id = u.id) =
        [⟨u.id, ProviderEnum.email, strToLower "b@x.com",
          some (strToLower "b@x.com"), none, 0⟩]) ∧
    AuthService.register cT entT 0 dbU "A@X.com" "pw" "A" "B" =
      .error (.valueError "Email already registered") := by
  constructor
  · exact (c8_register_conflict_and_link cT entT 0 dbEmpty "b@x.com" "pw" "A" "B"
      ⟨by simp [dbEmpty], by simp [dbEmpty]⟩).1 rfl
  · exact (c8_register_conflict_and_link cT entT 0 dbU "A@X.com" "pw" "A" "B"
      ⟨by simp [dbU, dbEmpty, uT], by simp [dbU, dbEmpty]⟩).2 uT rfl

/-! ## Claim C4 — refresh-token rotation makes a used token unusable -/

lemma find?_append_some {α : Type} (l₁ l₂ : List α) (p : α → Bool) (x : α)
    (h : l₁.find? p = some x) : (l₁ ++ l₂).find? p = some x := by
  induction l₁ with
  | nil => cases h
  | cons a l ih =>
    rcases hp : p a with _ | _
    · rw [List.cons_append, List.find?_cons_of_neg _ (by simp [hp])]
      rw [List.find?_cons_of_neg _ (by simp [hp])] at h
      exact ih h
    · rw [List.find?_cons_of_pos _ hp] at h
      rw [List.cons_append, List.find?_cons_of_pos _ hp]
      exact h

/-- Revoking the rows matching a digest preserves digests, so the lookup on
the revoked list finds the revoked image of the row the original lookup
found. -/
lemma find?_revoke_map (l : List RefreshTokenRow) (th : String) :
    (l.map (fun r => if r.token_hash = th then { r with is_revoked := true } else r)).find?
        (fun r => r.token_hash = th) =
      (l.find? (fun r => r.token_hash = th)).map
        (fun r => if r.token_hash = th then { r with is_revoked := true } else r) := by
  induction l with
  | nil => rfl
  | cons a l ih =>
    by_cases h : a.token_hash = th
    · simp [h]
    · simp [h, ih]

/-- C4: once a refresh call has succeeded for a raw token, every session row
carrying that token's digest is revoked in the post-state, and a second
refresh presenting the same raw token fails with the revoked-token
`ValueError` (mapped to HTTP 401, the spec's `InvalidToken` kind) — with no
condition on the expiry.  The hypothesis `hne` is the storage-level
uniqueness of the freshly minted digest (the unique index on `token_hash`
is the authority per spec §5). -/
theorem c4_refresh_single_use (c : Crypto) (e1 e2 : Ent) (t1 t2 : Nat) (db : DB)
    (tok : String) (d1 i1 d2 i2 : Option String)
    (hne : ¬ c.sha256hex e1.refreshRaw = JWTService.hash_token c tok)
    (h : ∃ x, AuthService.refresh_tokens c e1 t1 db tok d1 i1 = .ok x) :
    ∃ res db1, AuthService.refresh_tokens c e1 t1 db tok d1 i1 = .ok (res, db1) ∧
      (∀ r ∈ db1.refresh_tokens,
        r.token_hash = JWTService.hash_token c tok → r.is_revoked = true) ∧
      AuthService.refresh_tokens c e2 t2 db1 tok d2 i2 =
        .error (.valueError "Refresh token has been revoked") := by
  obtain ⟨⟨res, db1⟩, hx⟩ := h
  have hx0 := hx
  simp only [AuthService.refresh_tokens] at hx
  rcases hf : db.refresh_tokens.find?
      (fun r => r.token_hash = JWTService.hash_token c tok) with _ | r
  · rw [hf] at hx; cases hx
  · rw [hf] at hx
    have hrth : r.token_hash = JWTService.hash_token c tok := by
      have := List.find?_some hf
      simpa using this
    by_cases hrev : r.is_revoked = true
    · simp [hrev] at hx
    · simp only [hrev, Bool.false_eq_true, if_false] at hx
      by_cases hexp : r.is_expired t1 = true
      · simp [hexp] at hx
      · simp only [hexp, Bool.false_eq_true, if_false] at hx
        rcases hu : UserService.get_user_by_id db r.user_id with _ | u
        · rw [hu] at hx; cases hx
        · rw [hu] at hx
          by_cases hact : u.is_active = true
          · simp only [hact, not_true, Bool.false_eq_true, if_false,
              AuthService.generate_tokens, Except.ok.injEq, Prod.mk.injEq] at hx
            obtain ⟨h1, h2⟩ := hx
            refine ⟨res, db1, hx0, ?_, ?_⟩
            · intro r2 hr2 hhash
              rw [← h2] at hr2
              rcases List.mem_append.mp hr2 with hin | hin
              · obtain ⟨x0, hx0mem, rfl⟩ := List.mem_map.mp hin
                by_cases hxh : x0.token_hash = JWTService.hash_token c tok
                · simp [hxh]
                · rw [if_neg hxh] at hhash
                  exact absurd hhash hxh
              · rw [List.mem_singleton] at hin
                subst hin
                exact absurd hhash hne
            · have hfind2 : db1.refresh_tokens.find?
                  (fun r0 => r0.token_hash = JWTService.hash_token c tok) =
                  some { r with is_revoked := true } := by
                rw [← h2]
                refine find?_append_some _ _ _ _ ?_
                rw [find?_revoke_map, hf]
                simp [hrth]
              simp only [AuthService.refresh_tokens]
              rw [hfind2]
              simp
          · simp [hact] at hx

/-- C4 witness: a concrete store with one live session; the first refresh
succeeds, after it the presented digest is revoked everywhere, and replaying
the same raw token fails with the revoked-token error. -/
theorem c4_refresh_single_use_witness :
    ∃ res db1, AuthService.refresh_tokens cT entT 0
        { dbU with refresh_tokens :=
            [⟨0, cT.sha256hex "tok0", none, none, 100, false, 0⟩] }
        "tok0" none none = .ok (res, db1) ∧
      (∀ r ∈ db1.refresh_tokens,
        r.token_hash = JWTService.hash_token cT "tok0" → r.is_revoked = true) ∧
      AuthService.refresh_tokens cT entT2 5 db1 "tok0" none none =
        .error (.valueError "Refresh token has been revoked") := by
  exact c4_refresh_single_use cT entT entT2 0 5 _ "tok0" none none none none
    (by decide) ⟨_, rfl⟩

/-! ## Claim C5 — password-reset confirmation post-state -/

/-- C5: whenever `reset_password` succeeds, in the post-state every reset
record carrying the presented token's digest is marked used, the user's
stored password digest is the hash of the new password (both on the
returned row and in the store), and the user has zero refresh sessions with
`is_revoked = false`. -/
theorem c5_reset_password_postconditions (c : Crypto) (now : Nat) (db : DB)
    (token new_password : String)
    (h : ∃ x, AuthService.reset_password c now db token new_password = .ok x) :
    ∃ u db1, AuthService.reset_password c now db token new_password = .ok (u, db1) ∧
      u.password_hash = some (c.hashPw new_password) ∧
      (∀ r ∈ db1.email_verification_tokens,
        r.token_hash = JWTService.hash_token c token →
        r.token_type = "password_reset" → r.is_used = true) ∧
      (∀ w ∈ db1.users, w.id = u.id → w.password_hash = some (c.hashPw new_password)) ∧
      (∀ r ∈ db1.refresh_tokens, r.user_id = u.id → r.is_revoked = true) ∧
      (db1.refresh_tokens.filter
        (fun r => r.user_id = u.id ∧ r.is_revoked = false)).length = 0 := by
  obtain ⟨⟨uRes, db1⟩, hx⟩ := h
  have hx0 := hx
  simp only [AuthService.reset_password] at hx
  rcases hf : db.email_verification_tokens.find?
      (fun r => r.token_hash = JWTService.hash_token c token ∧
        r.token_type = "password_reset") with _ | rt
  · rw [hf] at hx; cases hx
  · rw [hf] at hx
    by_cases hused : rt.is_used = true
    · simp [hused] at hx
    · simp only [hused, Bool.false_eq_true, if_false] at hx
      by_cases hexp : rt.is_expired now = true
      · simp [hexp] at hx
      · simp only [hexp, Bool.false_eq_true, if_false,
          UserService.get_user_by_id, UserService.set_password,
          PasswordService.hash_password, AuthService.logout_all_devices,
          Except.ok.injEq, Prod.mk.injEq] at hx
        rcases hfu : db.users.find? (fun w => w.id = rt.user_id) with _ | user
        · rw [hfu] at hx; cases hx
        · rw [hfu] at hx
          obtain ⟨rfl, rfl⟩ := hx
          have hall : ∀ r2 ∈ List.map (fun r =>
              if r.user_id = user.id ∧ r.is_revoked = false
              then { r with is_revoked := true } else r) db.refresh_tokens,
              r2.user_id = user.id → r2.is_revoked = true := by
            intro r2 hr2 hid
            obtain ⟨x0, hx0mem, rfl⟩ := List.mem_map.mp hr2
            by_cases hc : x0.user_id = user.id ∧ x0.is_revoked = false
            · simp [hc]
            · rw [if_neg hc] at hid ⊢
              rcases Decidable.not_and_iff_or_not.mp hc with hl | hr3
              · exact absurd hid hl
              · simpa using hr3
          refine ⟨_, _, hx0, rfl, ?_, ?_, hall, ?_⟩
          · intro r2 hr2 hhash htype
            obtain ⟨x0, hx0mem, rfl⟩ := List.mem_map.mp hr2
            by_cases hc : x0.token_hash = JWTService.hash_token c token ∧
                x0.token_type = "password_reset"
            · simp [hc]
            · rw [if_neg hc] at hhash htype
              exact absurd ⟨hhash, htype⟩ hc
          · intro w hw hid
            obtain ⟨w0, hw0mem, rfl⟩ := List.mem_map.mp hw
            by_cases hc : w0.id = user.id
            · simp [hc]
            · rw [if_neg hc] at hid
              exact absurd hid hc
          · rw [List.length_eq_zero]
            refine List.filter_eq_nil_iff.mpr (fun r2 hr2 => ?_)
            by_cases hid : r2.user_id = user.id
            · simp [hid, hall r2 hr2 hid]
            · simp [hid]

/-- C5 witness: a concrete store with a pending reset record and one live
session; the reset succeeds, the record is used, the digest re-hashed and
the session count with `is_revoked = false` is zero. -/
theorem c5_reset_password_postconditions_witness :
    ∃ u db1, AuthService.reset_password cT 10
        { dbU with
            refresh_tokens := [⟨0, "h1", none, none, 100, false, 0⟩],
            email_verification_tokens :=
              [⟨0, cT.sha256hex "rt0", "password_reset", 3600, false, 0⟩] }
        "rt0" "npw" = .ok (u, db1) ∧
      u.password_hash = some (cT.hashPw "npw") ∧
      (∀ r ∈ db1.email_verification_tokens,
        r.token_hash = JWTService.hash_token cT "rt0" →
        r.token_type = "password_reset" → r.is_used = true) ∧
      (∀ w ∈ db1.users, w.id = u.id → w.password_hash = some (cT.hashPw "npw")) ∧
      (∀ r ∈ db1.refresh_tokens, r.user_id = u.id → r.is_revoked = true) ∧
      (db1.refresh_tokens.filter
        (fun r => r.user_id = u.id ∧ r.is_revoked = false)).length = 0 := by
  exact c5_reset_password_postconditions cT 10 _ "rt0" "npw" ⟨_, rfl⟩

/-! ## Claim C6 — social sign-in creates at most one user -/

lemma find?_append_none {α : Type} (l₁ l₂ : List α) (p : α → Bool)
    (h : l₁.find? p = none) : (l₁ ++ l₂).find? p = l₂.find? p := by
  induction l₁ with
  | nil => rfl
  | cons a l ih =>
    rcases hp : p a with _ | _
    · rw [List.find?_cons_of_neg _ (by simp [hp])] at h
      rw [List.cons_append, List.find?_cons_of_neg _ (by simp [hp])]
      exact ih h
    · rw [List.find?_cons_of_pos _ hp] at h
      cases h

/-- When the `(provider, provider_user_id)` link already exists, a social
sign-in run creates no user and leaves the link table unchanged. -/
lemma social_auth_link_found (c : Crypto) (ent : Ent) (now : Nat) (db : DB)
    (p : ProviderEnum) (info : API.SocialUserInfo) (d i : Option String)
    (a : SocialAccountRow)
    (hga : UserService.get_social_account db p info.provider_user_id = some a) :
    (API.handle_social_auth c ent now db p info d i).2.users.length =
        db.users.length ∧
      (API.handle_social_auth c ent now db p info d i).2.social_accounts =
        db.social_accounts := by
  simp only [API.handle_social_auth, hga]
  rcases hu : UserService.get_user_by_id db a.user_id with _ | u
  · exact ⟨rfl, rfl⟩
  · by_cases hact : u.is_active = true
    · simp [hact, UserService.update_last_login, AuthService.generate_tokens]
    · simp [hact]

/-- When the link does not exist yet, a social sign-in run creates at most
one user, and it appends exactly one link row carrying the presented
`(provider, provider_user_id)`. -/
lemma social_auth_link_missing (c : Crypto) (ent : Ent) (now : Nat) (db : DB)
    (p : ProviderEnum) (info : API.SocialUserInfo) (d i : Option String)
    (hga : UserService.get_social_account db p info.provider_user_id = none) :
    (API.handle_social_auth c ent now db p info d i).2.users.length ≤
        db.users.length + 1 ∧
      ∃ row, (API.handle_social_auth c ent now db p info d i).2.social_accounts =
          db.social_accounts ++ [row] ∧
        row.provider = p ∧ row.provider_user_id = info.provider_user_id := by
  simp only [API.handle_social_auth, hga]
  rcases hue : UserService.get_user_by_email db info.email with _ | u
  · constructor
    · simp [UserService.create_user, UserService.link_social_account,
        UserService.update_last_login, AuthService.generate_tokens,
        List.length_map]
    · exact ⟨_, rfl, rfl, rfl⟩
  · dsimp only
    by_cases hv : info.email_verified = true ∧ ¬ u.email_verified = true
    · rw [if_pos hv]
      constructor
      · simp [UserService.link_social_account, UserService.mark_email_verified,
          UserService.update_last_login, AuthService.generate_tokens,
          List.length_map]
      · exact ⟨_, rfl, rfl, rfl⟩
    · rw [if_neg hv]
      constructor
      · simp [UserService.link_social_account, UserService.update_last_login,
          AuthService.generate_tokens, List.length_map]
      · exact ⟨_, rfl, rfl, rfl⟩

/-- C6: running the social sign-in flow twice with the same
`(provider, provider_user_id)` identity creates at most one user in total,
because the provider-link lookup runs before the email lookup and before any
creation, and every branch that creates a user also creates the link. -/
theorem c6_social_signin_idempotent (c : Crypto) (e1 e2 : Ent) (t1 t2 : Nat)
    (db : DB) (p : ProviderEnum) (info : API.SocialUserInfo)
    (d1 i1 d2 i2 : Option String) :
    (API.handle_social_auth c e2 t2
        (API.handle_social_auth c e1 t1 db p info d1 i1).2
        p info d2 i2).2.users.length ≤ db.users.length + 1 := by
  rcases hga : UserService.get_social_account db p info.provider_user_id with _ | a
  · obtain ⟨hlen1, row, hacc, hrp, hrpu⟩ :=
      social_auth_link_missing c e1 t1 db p info d1 i1 hga
    have hfind : db.social_accounts.find?
        (fun a => a.provider = p ∧ a.provider_user_id = info.provider_user_id) =
          none := hga
    have hga2 : UserService.get_social_account
        (API.handle_social_auth c e1 t1 db p info d1 i1).2
        p info.provider_user_id = some row := by
      simp only [UserService.get_social_account]
      rw [hacc, find?_append_none _ _ _ hfind]
      simp [hrp, hrpu]
    obtain ⟨hlen2, _⟩ := social_auth_link_found c e2 t2
      (API.handle_social_auth c e1 t1 db p info d1 i1).2 p info d2 i2 row hga2
    omega
  · obtain ⟨hlen1, hacc⟩ := social_auth_link_found c e1 t1 db p info d1 i1 a hga
    have hga2 : UserService.get_social_account
        (API.handle_social_auth c e1 t1 db p info d1 i1).2
        p info.provider_user_id = some a := by
      simp only [UserService.get_social_account] at hga ⊢
      rw [hacc]
      exact hga
    obtain ⟨hlen2, _⟩ := social_auth_link_found c e2 t2
      (API.handle_social_auth c e1 t1 db p info d1 i1).2 p info d2 i2 a hga2
    omega

/-! ## Claim C7 — credential-hash verify on malformed digests -/

/-- C7 counterexample: the claim says the verify operation never throws and
returns `false` on a malformed digest.  On the empty string — which the
bcrypt backend does not identify — `PasswordService.verify_password`
propagates passlib's `UnknownHashError` instead of returning a boolean. -/
theorem c7_counterexample :
    PasswordService.verify_password cT "secret" "" =
        .error (.unknownHashError "hash could not be identified") ∧
      ∀ b : Bool, PasswordService.verify_password cT "secret" "" ≠ .ok b := by
  exact ⟨rfl, fun b h => by cases h⟩

/-- C7 (amended): `PasswordService.verify_password` returns a boolean
exactly on digests the bcrypt backend identifies and propagates
`UnknownHashError` on the rest; `UserService.verify_password` returns
`false` without consulting the backend when the stored digest is absent or
empty. -/
theorem c7_verify_password_behaviour (c : Crypto) (plain digest : String) :
    (bcrypt_identify digest = true →
      PasswordService.verify_password c plain digest = .ok (c.checkPw plain digest)) ∧
    (bcrypt_identify digest = false →
      PasswordService.verify_password c plain digest =
        .error (.unknownHashError "hash could not be identified")) ∧
    (∀ u : UserRow, u.password_hash = none ∨ u.password_hash = some "" →
      UserService.verify_password c u plain = .ok false) := by
  refine ⟨fun h => ?_, fun h => ?_, fun u hu => ?_⟩
  · simp [PasswordService.verify_password, pwd_context_verify, h]
  · simp [PasswordService.verify_password, pwd_context_verify, h]
  · rcases hu with hu | hu <;> simp [UserService.verify_password, hu]

/-- C7 witness: the amended statement evaluated at concrete inputs — an
identified digest yields a boolean, an unidentified one the error, and a
passwordless user verifies to `false`. -/
theorem c7_verify_password_behaviour_witness :
    PasswordService.verify_password cT "pw" "$2b$pw" = .ok true ∧
    PasswordService.verify_password cT "pw" "not-a-digest" =
      .error (.unknownHashError "hash could not be identified") ∧
    UserService.verify_password cT { uT with password_hash := none } "pw" = .ok false := by
  refine ⟨?_, ?_, ?_⟩
  · have h := (c7_verify_password_behaviour cT "pw" "$2b$pw").1 (by decide)
    simpa [cT] using h
  · exact (c7_verify_password_behaviour cT "pw" "not-a-digest").2.1 (by decide)
  · exact (c7_verify_password_behaviour cT "pw" "").2.2 _ (Or.inl rfl)

end SoulTalk
